import Mathlib

/-!
Verification of the collective-variable / staged-restraint script assembler
in `pflow/common/plumed/make_plumed.py`.

Python strings are modelled as Lean `String`; the Python string operations
used by the source (`str.split()` with no argument, `str.split(sep)` for a
one-character separator, substring membership `in`, `"".join`,
`os.path.basename`, `str.endswith`) are implemented below by structural
recursion over the character list so that concrete runs reduce in the kernel.

Python's dynamic failure modes (AssertionError, RuntimeError, TypeError,
IndexError, KeyError, ValueError, UnboundLocalError) are modelled by an
explicit error type, and every fallible operation returns `Except Err _`.
-/

set_option maxRecDepth 40000

/-- Python `str.split()` whitespace set (space, tab, newline, CR, VT, FF). -/
def isPySpace (c : Char) : Bool :=
  c = ' ' || c = '\t' || c = '\n' || c = '\r' || c = '\x0b' || c = '\x0c'

/-- Worker for `pySplit`: accumulates the current token (reversed). -/
def pySplitGo : List Char → List Char → List (List Char)
  | [], cur => if cur.isEmpty then [] else [cur.reverse]
  | c :: t, cur =>
    if isPySpace c then
      (if cur.isEmpty then pySplitGo t [] else cur.reverse :: pySplitGo t [])
    else pySplitGo t (c :: cur)

/-- Python `s.split()`: split on runs of whitespace, dropping empty tokens. -/
def pySplit (s : String) : List String :=
  (pySplitGo s.data []).map String.mk

/-- Worker for `pySplitCh`. -/
def pySplitChGo (sep : Char) : List Char → List Char → List (List Char)
  | [], cur => [cur.reverse]
  | c :: t, cur =>
    if c = sep then cur.reverse :: pySplitChGo sep t []
    else pySplitChGo sep t (c :: cur)

/-- Python `s.split(sep)` for a one-character separator: keeps empty pieces,
result length is (number of occurrences of `sep`) + 1. -/
def pySplitCh (sep : Char) (s : String) : List String :=
  (pySplitChGo sep s.data []).map String.mk

/-- Worker for `pyIn`: does the pattern occur as a contiguous sublist? -/
def listHasSub (pat : List Char) : List Char → Bool
  | [] => pat.isEmpty
  | c :: t => pat.isPrefixOf (c :: t) || listHasSub pat t

/-- Python `pat in s` (substring containment). -/
def pyIn (pat s : String) : Bool :=
  listHasSub pat.data s.data

/-- Python `sep.join(l)`. -/
def pyJoin (sep : String) : List String → String
  | [] => ""
  | [x] => x
  | x :: y :: t => x ++ sep ++ pyJoin sep (y :: t)

/-- Python `os.path.basename`: the part after the last `/`. -/
def pyBasename (s : String) : String :=
  String.mk (s.data.foldl (fun acc c => if c = '/' then [] else acc ++ [c]) [])

/-- Python `s.endswith(suf)`. -/
def pyEndsWith (suf s : String) : Bool :=
  suf.data.isSuffixOf s.data

/-- Python `int(s)` for a (possibly sign-prefixed) digit string. -/
def digitsToNatGo : List Char → Nat → Option Nat
  | [], acc => some acc
  | c :: t, acc =>
    if c.isDigit then digitsToNatGo t (acc * 10 + (c.toNat - '0'.toNat)) else none

/-- The exceptions the source can raise, as observable outcomes. -/
inductive Err
  | assertionError (msg : String)
  | runtimeError (msg : String)
  | typeError (msg : String)
  | indexError (msg : String)
  | keyError (msg : String)
  | valueError (msg : String)
  | unboundLocal (name : String)
deriving DecidableEq

deriving instance DecidableEq for Except

/-- Python `int(s)`: parse an integer literal, else ValueError. -/
def pyInt (s : String) : Except Err Int :=
  match s.data with
  | '-' :: (c :: t) =>
    (match digitsToNatGo (c :: t) 0 with
     | some n => .ok (-(n : Int))
     | none => .error (.valueError ("invalid literal for int() with base 10: " ++ s)))
  | c :: t =>
    (match digitsToNatGo (c :: t) 0 with
     | some n => .ok (n : Int)
     | none => .error (.valueError ("invalid literal for int() with base 10: " ++ s)))
  | [] => .error (.valueError ("invalid literal for int() with base 10: " ++ s))

/-- A Python scalar value as passed through the restraint machinery
(`Union[str, int, float]`); floats carry exact rationals since the source
never computes with them, only embeds them into directive text. -/
inductive PyVal
  | int (n : Int)
  | float (q : ℚ)
  | str (s : String)
deriving DecidableEq

/-- Rendering of a scalar into directive text. The exact float rendering is
never compared against a literal by any claim; integers and strings render
as in Python. -/
def pyValRepr : PyVal → String
  | .int n => toString n
  | .float q => toString q.num ++ "e" ++ toString q.den
  | .str s => s

/-- Is the value a Python `int` or `float` (the `isinstance` test used for
broadcasting in `make_restraint_plumed`)? -/
def isNumVal : PyVal → Bool
  | .int _ => true
  | .float _ => true
  | .str _ => false

/-- A parameter that may arrive as a bare scalar or as a sequence
(`Union[int, float, Sequence, np.ndarray]` in the source). -/
inductive PyParam
  | scalar (v : PyVal)
  | list (l : List PyVal)
deriving DecidableEq

/-- Python `len(p)`: TypeError on numbers, length on sequences. -/
def pyLen : PyParam → Except Err Nat
  | .scalar (.int _) => .error (.typeError "object of type 'int' has no len()")
  | .scalar (.float _) => .error (.typeError "object of type 'float' has no len()")
  | .scalar (.str s) => .ok s.data.length
  | .list l => .ok l.length

/-- Python `p[i]`: TypeError on numbers, IndexError out of range; indexing a
string yields its one-character pieces as in Python. -/
def pyIndex : PyParam → Nat → Except Err PyVal
  | .scalar (.int _), _ => .error (.typeError "'int' object is not subscriptable")
  | .scalar (.float _), _ => .error (.typeError "'float' object is not subscriptable")
  | .scalar (.str s), i =>
    if h : i < s.data.length then .ok (.str (String.mk [s.data.get ⟨i, h⟩]))
    else .error (.indexError "string index out of range")
  | .list l, i =>
    if h : i < l.length then .ok (l.get ⟨i, h⟩)
    else .error (.indexError "list index out of range")

/-- The scalar-to-list broadcasting done inline in `make_restraint_plumed`
(lines 245-248): a bare `int`/`float` is replicated once per CV; anything
else is passed through unchanged. -/
def broadcastNum (p : PyParam) (n : Nat) : PyParam :=
  match p with
  | .scalar v => if isNumVal v then .list (List.replicate n v) else p
  | .list _ => p

/-- The named fields handed by `make_restraint` to the
`moving_restraint_def` template. -/
structure MovingRestraint where
  name : String
  arg : String
  step0 : PyVal
  at0 : PyVal
  kappa0 : PyVal
  step1 : PyVal
  at1 : PyVal
  kappa1 : PyVal
  step2 : PyVal
  at2 : PyVal
  kappa2 : PyVal
deriving DecidableEq

/-- Modelled from the spec: the `moving_restraint_def` template lives in
`pflow/common/plumed/plumed_constant.py`, which is not under `src/`.  Per the
spec it is a single line of KEY=value tokens in the fixed order: name, arg,
then three repetitions of stepN, atN, kappaN. -/
def moving_restraint_def (r : MovingRestraint) : String :=
  "MOVINGRESTRAINT LABEL=" ++ r.name ++ " ARG=" ++ r.arg ++
  " STEP0=" ++ pyValRepr r.step0 ++ " AT0=" ++ pyValRepr r.at0 ++
  " KAPPA0=" ++ pyValRepr r.kappa0 ++
  " STEP1=" ++ pyValRepr r.step1 ++ " AT1=" ++ pyValRepr r.at1 ++
  " KAPPA1=" ++ pyValRepr r.kappa1 ++
  " STEP2=" ++ pyValRepr r.step2 ++ " AT2=" ++ pyValRepr r.at2 ++
  " KAPPA2=" ++ pyValRepr r.kappa2

/-- `make_restraint` (source lines 34-55): fills the three stages; stage 0 at
step 0 with the initial target, stages 1 and 2 with the final target, the one
spring constant repeated in all stages. -/
def make_restraint (name arg : String) (kappa step nsteps at_ final : PyVal) :
    MovingRestraint :=
  { name := name
    arg := arg
    step0 := .int 0
    at0 := at_
    kappa0 := kappa
    step1 := step
    at1 := final
    kappa1 := kappa
    step2 := nsteps
    at2 := final
    kappa2 := kappa }

/-- The per-CV loop of `make_moving_restraint_list` (source lines 70-73);
Python evaluates `kappa[idx]`, `step[idx]`, `nsteps`, `at[idx]`, `final[idx]`
left to right, so a TypeError/IndexError from an earlier index surfaces
first. -/
def restraintLoop (kappa step : PyParam) (nsteps : PyVal) (at_ final : PyParam) :
    List String → Nat → Except Err (List MovingRestraint × List String)
  | [], _ => .ok ([], [])
  | cv :: rest, idx => do
    let k ← pyIndex kappa idx
    let s ← pyIndex step idx
    let a ← pyIndex at_ idx
    let f ← pyIndex final idx
    let r := make_restraint ("res-" ++ cv) cv k s nsteps a f
    let (rs, ns) ← restraintLoop kappa step nsteps at_ final rest (idx + 1)
    .ok (r :: rs, ("res-" ++ cv) :: ns)

/-- `make_moving_restraint_list` (source lines 57-74): asserts
`len(cv_list) == len(kappa)` and `len(cv_list) == len(at)` before entering
the generation loop; `step` and `final` lengths are never checked. -/
def make_moving_restraint_list (cv_list : List String) (kappa step : PyParam)
    (nsteps : PyVal) (at_ final : PyParam) :
    Except Err (List MovingRestraint × List String) := do
  let nk ← pyLen kappa
  if cv_list.length ≠ nk then
    .error (.assertionError "Make sure `kappa` and `cv_names` have the same length.")
  else do
    let na ← pyLen at_
    if cv_list.length ≠ na then
      .error (.assertionError "Make sure `at` and `cv_names` have the same length.")
    else
      restraintLoop kappa step nsteps at_ final cv_list 0

/-- Modelled from the spec: `list_to_string` from `pflow.utils` is not under
`src/`; per the spec it joins the items with the given separator, order
preserved. -/
def list_to_string (l : List String) (sep : String) : String :=
  pyJoin sep l

/-- Modelled from the spec: the `print_def` template from
`pflow/common/plumed/plumed_constant.py` is not under `src/`.  It is one line
with the print keyword and the stride, argument and file assignments, in the
token order the Custom Script Adapter itself assumes (stride is the second
whitespace token, the file assignment is the last). -/
def print_def (stride : Nat) (arg : String) (file : String) : String :=
  "PRINT STRIDE=" ++ toString stride ++ " ARG=" ++ arg ++ " FILE=" ++ file

/-- `make_print_bias` (source lines 77-86). -/
def make_print_bias (name_list : List String) (stride : Nat) (file_name : String) :
    String :=
  print_def stride (list_to_string name_list ",") file_name

/-- `make_print` (source lines 88-97). -/
def make_print (name_list : List String) (stride : Nat) (file_name : String) :
    String :=
  print_def stride (list_to_string name_list ",") file_name

/-- The module-level `angle_id` dict: `{"phi": 0, "psi": 1}`; any other key
raises KeyError. -/
def angle_id (s : String) : Except Err Nat :=
  if s = "phi" then .ok 0
  else if s = "psi" then .ok 1
  else .error (.keyError s)

/-- Modelled from the spec: the `dihedral_name` template (in
`plumed_constant.py`, not under `src/`) is a deterministic pure function of
the residue id and the angle-kind index. -/
def dihedral_name (resid : Int) (angid : Nat) : String :=
  "dih-" ++ toString resid ++ "-" ++ toString angid

/-- Modelled from the spec: the `dihedral_def_from_atoms` template (not under
`src/`) declares a torsion CV embedding the four atom indices in order. -/
def dihedral_def_from_atoms (name : String) (a1 a2 a3 a4 : Int) : String :=
  "TORSION LABEL=" ++ name ++ " ATOMS=" ++ toString a1 ++ "," ++ toString a2 ++
  "," ++ toString a3 ++ "," ++ toString a4

/-- Modelled from the spec: the `distance_name` template (not under `src/`)
is a deterministic pure function of the two atom ids. -/
def distance_name (a b : Int) : String :=
  "dist-" ++ toString a ++ "-" ++ toString b

/-- Modelled from the spec: the `distance_def_from_atoms` template (not under
`src/`) declares a distance CV embedding the two atom tokens in order. -/
def distance_def_from_atoms (name : String) (a1 a2 : String) : String :=
  "DISTANCE LABEL=" ++ name ++ " ATOMS=" ++ a1 ++ "," ++ a2

/-- `make_torsion` (source lines 131-140): asserts the atom list has exactly
4 members. -/
def make_torsion (name : String) (atom_list : List Int) : Except Err String :=
  match atom_list with
  | [a1, a2, a3, a4] => .ok (dihedral_def_from_atoms name a1 a2 a3 a4)
  | l =>
    .error (.assertionError
      ("Make sure dihedral angle defined by 4 atoms, not " ++ toString l.length ++ "."))

/-- `make_distance` (source lines 142-150): asserts the atom list has exactly
2 members. -/
def make_distance (name : String) (atom_list : List String) : Except Err String :=
  match atom_list with
  | [a1, a2] => .ok (distance_def_from_atoms name a1 a2)
  | l =>
    .error (.assertionError
      ("Make sure distance defined by 2 atoms, not " ++ toString l.length ++ "."))

/-- `make_torsion_name` (source lines 153-157). -/
def make_torsion_name (resid : Int) (angid : Nat) : String :=
  dihedral_name resid angid

/-- `make_distance_name` (source lines 159-163): parses the first two tokens
with `int(...)` (IndexError if fewer than two). -/
def make_distance_name (atomids : List String) : Except Err String := do
  match atomids with
  | a :: b :: _ => do
    let x ← pyInt a
    let y ← pyInt b
    .ok (distance_name x y)
  | _ => .error (.indexError "list index out of range")

/-- Inner loop of `make_torsion_list` over the angle kinds of one residue
(source lines 171-177). -/
def torsionInner (resid : Int) :
    List (String × List Int) → Except Err (List String × List String)
  | [] => .ok ([], [])
  | (ang, atoms) :: rest => do
    let aid ← angle_id ang
    let nm := make_torsion_name resid aid
    let d ← make_torsion nm atoms
    let (ds, ns) ← torsionInner resid rest
    .ok (d :: ds, nm :: ns)

/-- `make_torsion_list` (source lines 165-178): iterates residues in dict
(insertion) order, then angle kinds, appending one name and one directive per
pair. -/
def make_torsion_list :
    List (Int × List (String × List Int)) → Except Err (List String × List String)
  | [] => .ok ([], [])
  | (resid, angs) :: rest => do
    let (ds, ns) ← torsionInner resid angs
    let (ds2, ns2) ← make_torsion_list rest
    .ok (ds ++ ds2, ns ++ ns2)

/-- `make_distance_list` (source lines 180-194): iterates the keys
`"atomid1 atomid2"` of the resolved mapping (the reference values are
unused), splitting each key on single spaces. -/
def make_distance_list :
    List (String × PyVal) → Except Err (List String × List String)
  | [] => .ok ([], [])
  | (key, _) :: rest => do
    let atom_list := pySplitCh ' ' key
    let nm ← make_distance_name atom_list
    let d ← make_distance nm atom_list
    let (ds, ns) ← make_distance_list rest
    .ok (d :: ds, nm :: ns)

/-- `make_torsion_list_from_file` (source lines 196-203).  The call to the
external Geometry Resolver `get_dihedral_from_resid` is modelled by taking
its result `cv_info` as the input; the source then asserts the mapping is
non-empty. -/
def make_torsion_list_from_file (cv_info : List (Int × List (String × List Int))) :
    Except Err (List String × List String) :=
  if cv_info.length > 0 then make_torsion_list cv_info
  else .error (.assertionError "No valid CVs created.")

/-- `make_distance_list_from_file` (source lines 205-212), with the external
resolver `get_distance_from_atomid` modelled by taking its result as input. -/
def make_distance_list_from_file (cv_info : List (String × PyVal)) :
    Except Err (List String × List String) :=
  if cv_info.length > 0 then make_distance_list cv_info
  else .error (.assertionError "No valid CVs created.")

/-- The detection test of `user_plumed_def` line 115: the raw line contains
`"PRINT"` and does not contain `"#"` anywhere. -/
def detectLine (l : String) : Bool :=
  pyIn "PRINT" l && !(pyIn "#" l)

/-- The extraction `line.split()[2].split("=")[1].split(",")` of source line
117, with Python's IndexError on the two subscripts. -/
def extractNames (l : String) : Except Err (List String) :=
  match (pySplit l).get? 2 with
  | none => .error (.indexError "list index out of range")
  | some t =>
    match (pySplitCh '=' t).get? 1 with
    | none => .error (.indexError "list index out of range")
    | some v => .ok (pySplitCh ',' v)

/-- The scan loop of `user_plumed_def` (source lines 114-119): every raw line
(kept verbatim, newline included) before the first detected line is
concatenated onto `ret`; at the detected line the CV names are extracted and
the loop breaks, discarding all later lines.  The detected line is kept as
the raw `print_content` (the source appends one more `"\n"`, which no later
operation can observe: whitespace-splitting and comma-counting are unaffected
by a trailing newline). -/
def userScan : List String → String → Except Err (String × List String × Option String)
  | [], acc => .ok (acc, [], none)
  | l :: t, acc =>
    if detectLine l then do
      let names ← extractNames l
      .ok (acc, names, some l)
    else userScan t (acc ++ l)

/-- `user_plumed_def` (source lines 107-128).  Input is the `readlines()`
view of the file: the list of raw lines, each still carrying its trailing
newline (except possibly the last). -/
def user_plumed_def (lines : List String) (pstride : Nat) (pfile : String) :
    Except Err (String × List String × Option String) := do
  let (ret, cv_names, pc) ← userScan lines ""
  if ret = "" ∨ cv_names = [] then
    .error (.runtimeError "Invalid customed plumed files.")
  else
    match pc with
    | none => .ok (ret, cv_names, none)
    | some c =>
      if (pySplitCh ',' c).length = cv_names.length then
        let ts := pySplit c
        let ts1 := ts.set (ts.length - 1) ("FILE=" ++ pfile)
        let ts2 := ts1.set 1 ("STRIDE=" ++ toString pstride)
        .ok (ret, cv_names, some (pyJoin " " ts2))
      else
        .error (.assertionError
          ("There are " ++ toString cv_names.length ++
           " CVs defined in the plumed file, while " ++
           toString (pySplitCh ',' c).length ++ " CVs are printed."))

/-- A user-supplied custom plumed file: its path and its raw lines. -/
structure PlumedFile where
  path : String
  lines : List String
deriving DecidableEq

/-- The pdb-skipping test of the custom-mode loops (source lines 239, 280,
304): `not os.path.basename(cv_file_).endswith("pdb")` decides whether a file
is processed. -/
def isPdbPath (p : String) : Bool :=
  pyEndsWith "pdb" (pyBasename p)

/-- The custom-mode `for cv_file_ in cv_file` loop shared verbatim by all
three entry points: each non-pdb file is run through `user_plumed_def`
(errors propagate), each run overwriting the previous bindings; `none` means
the loop ended with `ret` / `cv_name_list` never assigned. -/
def customLoopGo (stride : Nat) (output : String) :
    List PlumedFile → Option (String × List String × Option String) →
    Except Err (Option (String × List String × Option String))
  | [], acc => .ok acc
  | f :: t, acc =>
    if isPdbPath f.path then customLoopGo stride output t acc
    else do
      let r ← user_plumed_def f.lines stride output
      customLoopGo stride output t (some r)

/-- The custom-mode loop started from no bindings. -/
def customLoop (files : List PlumedFile) (stride : Nat) (output : String) :
    Except Err (Option (String × List String × Option String)) :=
  customLoopGo stride output files none

/-- The shape of a Python return value of the assembler entry points: the
source is dynamically typed, so whether a call returns a bare string, a
`(script, names)` pair, or a bare name list is part of the value. -/
inductive PyRet
  | str (s : String)
  | pair (s : String) (names : List String)
  | strList (l : List String)
deriving DecidableEq

/-- The tail of `make_restraint_plumed` after mode dispatch (source lines
245-257): broadcast scalar `kappa`/`at` over the CV names, build the
restraint directives, append the first restraint's `.force2` channel to the
name list (IndexError on an empty restraint list, as `res_names[0]` would
raise), append the print directive, and join everything with newlines. -/
def restraintTail (content : List String) (names : List String)
    (kappa step : PyParam) (nsteps : PyVal) (at_ final : PyParam)
    (stride : Nat) (output : String) : Except Err PyRet := do
  let kappa2 := broadcastNum kappa names.length
  let at2 := broadcastNum at_ names.length
  let (res_list, res_names) ← make_moving_restraint_list names kappa2 step nsteps at2 final
  match res_names with
  | [] => .error (.indexError "list index out of range")
  | r0 :: _ =>
    let names2 := names ++ [r0 ++ ".force2"]
    let content2 := (content ++ res_list.map moving_restraint_def) ++
      [make_print names2 stride output]
    .ok (.str (list_to_string content2 "\n"))

/-- `make_restraint_plumed` (source lines 214-257).  The external resolver
calls of the torsion / distance branches are modelled by passing their
results (`dihedral_info`, `distance_info`) as inputs; the custom branch loops
over the supplied files.  If the custom loop assigned nothing, the subsequent
use of `ret` raises UnboundLocalError. -/
def make_restraint_plumed (dihedral_info : List (Int × List (String × List Int)))
    (distance_info : List (String × PyVal)) (cv_file : List PlumedFile)
    (kappa step : PyParam) (nsteps : PyVal) (at_ final : PyParam)
    (stride : Nat) (output : String) (mode : String) : Except Err PyRet :=
  if mode = "torsion" then do
    let (cvc, cvn) ← make_torsion_list_from_file dihedral_info
    restraintTail cvc cvn kappa step nsteps at_ final stride output
  else if mode = "distance" then do
    let (cvc, cvn) ← make_distance_list_from_file distance_info
    restraintTail cvc cvn kappa step nsteps at_ final stride output
  else if mode = "custom" then do
    let r ← customLoop cv_file stride output
    match r with
    | none => .error (.unboundLocal "ret")
    | some (ret, cvn, _) => restraintTail [ret] cvn kappa step nsteps at_ final stride output
  else .error (.runtimeError "Unknown mode for making plumed files.")

/-- `make_plain_plumed` (source lines 260-286): same dispatch, no restraints;
appends one `make_print_bias` directive over the CV names. -/
def make_plain_plumed (dihedral_info : List (Int × List (String × List Int)))
    (distance_info : List (String × PyVal)) (cv_file : List PlumedFile)
    (stride : Nat) (output : String) (mode : String) : Except Err PyRet :=
  if mode = "torsion" then do
    let (cvc, cvn) ← make_torsion_list_from_file dihedral_info
    .ok (.str (list_to_string (cvc ++ [make_print_bias cvn stride output]) "\n"))
  else if mode = "distance" then do
    let (cvc, cvn) ← make_distance_list_from_file distance_info
    .ok (.str (list_to_string (cvc ++ [make_print_bias cvn stride output]) "\n"))
  else if mode = "custom" then do
    let r ← customLoop cv_file stride output
    match r with
    | none => .error (.unboundLocal "ret")
    | some (ret, cvn, _) =>
      .ok (.str (list_to_string ([ret] ++ [make_print_bias cvn stride output]) "\n"))
  else .error (.runtimeError "Unknown mode for making plumed files.")

/-- `get_cv_name` (source lines 289-308): same dispatch, returns only the
name list; the custom branch hard-codes the output file `"test.out"`, and an
all-pdb (or empty) file list leaves `cv_name_list` unassigned. -/
def get_cv_name (dihedral_info : List (Int × List (String × List Int)))
    (distance_info : List (String × PyVal)) (cv_file : List PlumedFile)
    (stride : Nat) (mode : String) : Except Err PyRet :=
  if mode = "torsion" then do
    let (_, cvn) ← make_torsion_list_from_file dihedral_info
    .ok (.strList cvn)
  else if mode = "distance" then do
    let (_, cvn) ← make_distance_list_from_file distance_info
    .ok (.strList cvn)
  else if mode = "custom" then do
    let r ← customLoop cv_file stride "test.out"
    match r with
    | none => .error (.unboundLocal "cv_name_list")
    | some (_, cvn, _) => .ok (.strList cvn)
  else .error (.runtimeError "Unknown mode for making plumed files.")

/-- Does an entry-point outcome carry a `(script, names)` pair? -/
def retIsPair : Except Err PyRet → Bool
  | .ok (.pair _ _) => true
  | _ => false

/-- Does an entry-point outcome carry a bare script string? -/
def retIsStr : Except Err PyRet → Bool
  | .ok (.str _) => true
  | _ => false

/-- Does an entry-point outcome carry a bare name list? -/
def retIsStrList : Except Err PyRet → Bool
  | .ok (.strList _) => true
  | _ => false

/-- Is the outcome an UnboundLocalError? -/
def retIsUnbound : Except Err PyRet → Bool
  | .error (.unboundLocal _) => true
  | _ => false

/-- The pass-through body of a successful `user_plumed_def` run. -/
def adapterBody : Except Err (String × List String × Option String) → Option String
  | .ok (r, _, _) => some r
  | _ => none

/-- The CV-name list of a successful `user_plumed_def` run. -/
def adapterNames : Except Err (String × List String × Option String) → Option (List String)
  | .ok (_, ns, _) => some ns
  | _ => none

/-- The rewritten print line of a successful `user_plumed_def` run. -/
def adapterRewritten : Except Err (String × List String × Option String) → Option (Option String)
  | .ok (_, _, pc) => some pc
  | _ => none

/-- Is the outcome an AssertionError? -/
def outcomeIsAssert {α : Type} : Except Err α → Bool
  | .error (.assertionError _) => true
  | _ => false

/-- A custom script following the convention the adapter actually assumes:
the stride assignment is the second whitespace token of the print line. -/
def goodScript : List String :=
  ["d1: DISTANCE ATOMS=1,2\n", "PRINT STRIDE=10 ARG=a,b FILE=old.out\n"]

/-- A custom script following the convention the spec describes (argument
assignment as second token). -/
def specStyleScript : List String :=
  ["d1: DISTANCE ATOMS=1,2\n", "PRINT ARG=a,b STRIDE=10 FILE=old.out\n"]

/-- A custom script with a comment line before the print directive and a
further definition line after it. -/
def postScript : List String :=
  ["# comment\n", "d1: DISTANCE ATOMS=1,2\n", "PRINT STRIDE=10 ARG=a FILE=o.out\n",
   "d2: DISTANCE ATOMS=3,4\n"]

example : pySplit "PRINT STRIDE=10 ARG=a,b FILE=old.out" =
    ["PRINT", "STRIDE=10", "ARG=a,b", "FILE=old.out"] := by decide

example : pySplitCh ',' "PRINT ARG=a,b STRIDE=10" = ["PRINT ARG=a", "b STRIDE=10"] := by
  decide

example : pyIn "PRINT" "# a PRINTED line" = true := by decide

example : pyBasename "a/b/c.pdb" = "c.pdb" := by decide

example : pyEndsWith "pdb" "c.pdb" = true := by decide

example : pyInt "-42" = .ok (-42) := by decide

@[simp]
theorem except_ok_bind {α β : Type} (a : α) (f : α → Except Err β) :
    (Except.ok a : Except Err α) >>= f = f a := rfl

@[simp]
theorem except_error_bind {α β : Type} (e : Err) (f : α → Except Err β) :
    (Except.error e : Except Err α) >>= f = Except.error e := rfl

/-- Claim C9: the two print-directive builders are extensionally equal: on
every name list, stride and output file they produce the identical directive
string. -/
theorem make_print_eq_make_print_bias (name_list : List String) (stride : Nat)
    (file_name : String) :
    make_print name_list stride file_name = make_print_bias name_list stride file_name :=
  rfl

/-- Claim C5: when `len(cv_list)` differs from `len(kappa)` or from
`len(at)`, `make_moving_restraint_list` fails with the corresponding
assertion error, and the failure is the whole outcome of the call — no
restraint directive is part of the result. -/
theorem restraint_list_length_mismatch_fails (cv_list : List String)
    (ks ats : List PyVal) (step final : PyParam) (nsteps : PyVal) :
    (cv_list.length ≠ ks.length →
      make_moving_restraint_list cv_list (.list ks) step nsteps (.list ats) final =
        .error (.assertionError "Make sure `kappa` and `cv_names` have the same length.")) ∧
    (cv_list.length = ks.length → cv_list.length ≠ ats.length →
      make_moving_restraint_list cv_list (.list ks) step nsteps (.list ats) final =
        .error (.assertionError "Make sure `at` and `cv_names` have the same length.")) := by
  constructor
  · intro h
    simp [make_moving_restraint_list, pyLen, h]
  · intro h1 h2
    have h3 : ks.length ≠ ats.length := h1 ▸ h2
    simp [make_moving_restraint_list, pyLen, h1, h3]

/-- Witness for C5 at a concrete length-mismatched input (3 CV names, 2
kappa values; then 3 kappa values but 2 initial targets). -/
theorem restraint_list_length_mismatch_fails_witness :
    make_moving_restraint_list ["a", "b", "c"] (.list [.int 1, .int 2])
        (.list []) (.int 0) (.list []) (.list []) =
      .error (.assertionError "Make sure `kappa` and `cv_names` have the same length.") ∧
    make_moving_restraint_list ["a", "b", "c"] (.list [.int 1, .int 2, .int 3])
        (.list []) (.int 0) (.list [.int 1, .int 2]) (.list []) =
      .error (.assertionError "Make sure `at` and `cv_names` have the same length.") :=
  ⟨(restraint_list_length_mismatch_fails ["a", "b", "c"] [.int 1, .int 2] []
      (.list []) (.list []) (.int 0)).1 (by decide),
   (restraint_list_length_mismatch_fails ["a", "b", "c"] [.int 1, .int 2, .int 3]
      [.int 1, .int 2] (.list []) (.list []) (.int 0)).2 (by decide) (by decide)⟩

/-- Structure of every directive produced by the per-CV loop, indexed from
the loop's running offset. -/
theorem restraintLoop_spec (l : List String) :
    ∀ (kappa step : PyParam) (nsteps : PyVal) (at_ final : PyParam) (idx : Nat)
      (rs : List MovingRestraint) (ns : List String),
    restraintLoop kappa step nsteps at_ final l idx = .ok (rs, ns) →
    rs.length = l.length ∧
    ∀ i r, rs.get? i = some r →
      r.step0 = .int 0 ∧
      pyIndex at_ (idx + i) = .ok r.at0 ∧
      pyIndex step (idx + i) = .ok r.step1 ∧
      pyIndex final (idx + i) = .ok r.at1 ∧
      r.step2 = nsteps ∧ r.at2 = r.at1 ∧
      pyIndex kappa (idx + i) = .ok r.kappa0 ∧
      r.kappa1 = r.kappa0 ∧ r.kappa2 = r.kappa0 := by
  induction l with
  | nil =>
    intro kappa step nsteps at_ final idx rs ns h
    simp [restraintLoop] at h
    obtain ⟨h1, h2⟩ := h
    subst h1
    simp
  | cons cv rest ih =>
    intro kappa step nsteps at_ final idx rs ns h
    simp only [restraintLoop] at h
    cases hk : pyIndex kappa idx with
    | error e => rw [hk] at h; simp at h
    | ok k =>
    rw [hk] at h; rw [except_ok_bind] at h
    cases hs : pyIndex step idx with
    | error e => rw [hs] at h; simp at h
    | ok s =>
    rw [hs] at h; rw [except_ok_bind] at h
    cases ha : pyIndex at_ idx with
    | error e => rw [ha] at h; simp at h
    | ok a =>
    rw [ha] at h; rw [except_ok_bind] at h
    cases hf : pyIndex final idx with
    | error e => rw [hf] at h; simp at h
    | ok f =>
    rw [hf] at h; rw [except_ok_bind] at h
    cases hrec : restraintLoop kappa step nsteps at_ final rest (idx + 1) with
    | error e => rw [hrec] at h; simp at h
    | ok p =>
    obtain ⟨rs2, ns2⟩ := p
    rw [hrec] at h
    rw [except_ok_bind] at h
    have h2 := Except.ok.inj h
    have hrs := congrArg Prod.fst h2
    have hns := congrArg Prod.snd h2
    simp only at hrs hns
    subst hrs
    subst hns
    obtain ⟨ihlen, ihspec⟩ := ih kappa step nsteps at_ final (idx + 1) rs2 ns2 hrec
    constructor
    · simp [ihlen]
    · intro i r hget
      cases i with
      | zero =>
        simp only [List.get?] at hget
        have hr := Option.some.inj hget
        subst hr
        exact ⟨rfl, by simpa using ha, by simpa using hs, by simpa using hf,
          rfl, rfl, by simpa using hk, rfl, rfl⟩
      | succ n =>
        simp only [List.get?] at hget
        have hfields := ihspec n r hget
        have e : idx + 1 + n = idx + (n + 1) := by omega
        rw [e] at hfields
        exact hfields

/-- Claim C3: every restraint directive built by
`make_moving_restraint_list` encodes three stages with stage-0 step 0 and
the initial target `at`, stage-1 step equal to the given transition step
with the final target, stage-2 step equal to the final step count `nsteps`
repeating the final target, and the same spring constant in all three
stages; one directive is built per CV. -/
theorem restraint_stages_spec (cv_list : List String) (kappa step : PyParam)
    (nsteps : PyVal) (at_ final : PyParam) (rs : List MovingRestraint)
    (ns : List String)
    (h : make_moving_restraint_list cv_list kappa step nsteps at_ final = .ok (rs, ns)) :
    rs.length = cv_list.length ∧
    ∀ i r, rs.get? i = some r →
      r.step0 = .int 0 ∧
      pyIndex at_ i = .ok r.at0 ∧
      pyIndex step i = .ok r.step1 ∧
      pyIndex final i = .ok r.at1 ∧
      r.step2 = nsteps ∧ r.at2 = r.at1 ∧
      pyIndex kappa i = .ok r.kappa0 ∧
      r.kappa1 = r.kappa0 ∧ r.kappa2 = r.kappa0 := by
  simp only [make_moving_restraint_list] at h
  cases hlk : pyLen kappa with
  | error e => rw [hlk] at h; simp at h
  | ok nk =>
  rw [hlk, except_ok_bind] at h
  by_cases hc1 : cv_list.length ≠ nk
  · rw [if_pos hc1] at h; simp at h
  · rw [if_neg hc1] at h
    cases hla : pyLen at_ with
    | error e => rw [hla] at h; simp at h
    | ok na =>
    rw [hla, except_ok_bind] at h
    by_cases hc2 : cv_list.length ≠ na
    · rw [if_pos hc2] at h; simp at h
    · rw [if_neg hc2] at h
      have hspec := restraintLoop_spec cv_list kappa step nsteps at_ final 0 rs ns h
      simpa using hspec

/-- The restraint directive `make_moving_restraint_list` builds for the
single CV `"a"` with kappa 2, transition step 10, final step count 500,
initial target 1 and final target 7. -/
def sampleRestraint : MovingRestraint :=
  make_restraint "res-a" "a" (.int 2) (.int 10) (.int 500) (.int 1) (.int 7)

/-- Witness for C3 at a concrete input: one CV with integer parameters. -/
theorem restraint_stages_spec_witness :
    sampleRestraint.step0 = .int 0 ∧
    pyIndex (.list [.int 1]) 0 = .ok sampleRestraint.at0 ∧
    pyIndex (.list [.int 10]) 0 = .ok sampleRestraint.step1 ∧
    pyIndex (.list [.int 7]) 0 = .ok sampleRestraint.at1 ∧
    sampleRestraint.step2 = .int 500 ∧ sampleRestraint.at2 = sampleRestraint.at1 ∧
    pyIndex (.list [.int 2]) 0 = .ok sampleRestraint.kappa0 ∧
    sampleRestraint.kappa1 = sampleRestraint.kappa0 ∧
    sampleRestraint.kappa2 = sampleRestraint.kappa0 :=
  (restraint_stages_spec ["a"] (.list [.int 2]) (.list [.int 10]) (.int 500)
    (.list [.int 1]) (.list [.int 7]) [sampleRestraint] ["res-a"]
    (by decide)).2 0 sampleRestraint (by decide)

/-- Claim C4 (code bug evaluated at the failing input): with its own
declared scalar defaults `step=500000` and `final=10.0`, the restrained
entry point raises TypeError at `step[idx]` — only `kappa` and `at` are
broadcast — so a shared scalar final target is not accepted; likewise the
builder itself raises TypeError at `final[idx]` on a scalar `final`. -/
theorem scalar_step_final_typeerror :
    make_restraint_plumed [] [] [⟨"cvs.dat", goodScript⟩]
        (.scalar (.float (1 / 2))) (.scalar (.int 500000)) (.int 500000)
        (.scalar (.float 1)) (.scalar (.float 10)) 100 "plm.out" "custom" =
      .error (.typeError "'int' object is not subscriptable") ∧
    make_moving_restraint_list ["a"] (.list [.int 1]) (.list [.int 10]) (.int 500)
        (.list [.int 1]) (.scalar (.float 10)) =
      .error (.typeError "'float' object is not subscriptable") := by decide

/-- Claim C6: in restrained assembly, a bare numeric `kappa` or `at` over
`n` CV names is broadcast (by `broadcastNum`, the normalization used by
`make_restraint_plumed`) to a list of length `n` with every element equal to
the scalar; a sequence is passed through unchanged, and the restrained tail
computes the same result on a scalar and on its explicit broadcast. -/
theorem broadcast_scalar_spec :
    (∀ (v : PyVal) (n : Nat), isNumVal v = true →
      broadcastNum (.scalar v) n = .list (List.replicate n v) ∧
      (List.replicate n v).length = n ∧ ∀ x ∈ List.replicate n v, x = v) ∧
    (∀ (l : List PyVal) (n : Nat), broadcastNum (.list l) n = .list l) ∧
    (∀ (content names : List String) (step : PyParam) (nsteps : PyVal)
       (final : PyParam) (stride : Nat) (output : String) (v w : PyVal),
      isNumVal v = true → isNumVal w = true →
      restraintTail content names (.scalar v) step nsteps (.scalar w) final stride output =
        restraintTail content names (.list (List.replicate names.length v)) step nsteps
          (.list (List.replicate names.length w)) final stride output) := by
  refine ⟨?_, ?_, ?_⟩
  · intro v n hv
    refine ⟨by simp [broadcastNum, hv], by simp, ?_⟩
    intro x hx
    exact List.eq_of_mem_replicate hx
  · intro l n
    rfl
  · intro content names step nsteps final stride output v w hv hw
    simp [restraintTail, broadcastNum, hv, hw]

/-- Witness for C6 at concrete inputs: an integer scalar broadcast over 3
CVs, and a one-CV restrained tail on scalar versus broadcast parameters. -/
theorem broadcast_scalar_spec_witness :
    broadcastNum (.scalar (.int 5)) 3 = .list (List.replicate 3 (.int 5)) ∧
    restraintTail ["c"] ["a"] (.scalar (.int 2)) (.list [.int 10]) (.int 500)
        (.scalar (.int 1)) (.list [.int 7]) 100 "o" =
      restraintTail ["c"] ["a"] (.list (List.replicate 1 (.int 2))) (.list [.int 10])
        (.int 500) (.list (List.replicate 1 (.int 1))) (.list [.int 7]) 100 "o" :=
  ⟨(broadcast_scalar_spec.1 (.int 5) 3 (by decide)).1,
   broadcast_scalar_spec.2.2 ["c"] ["a"] (.list [.int 10]) (.int 500) (.list [.int 7])
     100 "o" (.int 2) (.int 1) (by decide) (by decide)⟩

/-- Counterexample for C7: on the unrecognized mode `"bogus"` the entry
point raises the fixed message "Unknown mode for making plumed files.",
which does not contain (identify) the invalid mode string. -/
theorem unknown_mode_counterexample :
    make_plain_plumed [] [] [] 100 "plm.out" "bogus" =
      .error (.runtimeError "Unknown mode for making plumed files.") ∧
    pyIn "bogus" "Unknown mode for making plumed files." = false := by decide

/-- Claim C7 as amended: for every mode tag other than "torsion",
"distance", "custom", all three entry points fail immediately with a
RuntimeError carrying the fixed message "Unknown mode for making plumed
files." (the message does not name the offending mode), and the failure is
the entire outcome — no partial directive text is produced. -/
theorem unknown_mode_fails (dihedral_info : List (Int × List (String × List Int)))
    (distance_info : List (String × PyVal)) (cv_file : List PlumedFile)
    (kappa step : PyParam) (nsteps : PyVal) (at_ final : PyParam)
    (stride stride2 : Nat) (output : String) (mode : String)
    (h1 : mode ≠ "torsion") (h2 : mode ≠ "distance") (h3 : mode ≠ "custom") :
    make_restraint_plumed dihedral_info distance_info cv_file kappa step nsteps
        at_ final stride output mode =
      .error (.runtimeError "Unknown mode for making plumed files.") ∧
    make_plain_plumed dihedral_info distance_info cv_file stride output mode =
      .error (.runtimeError "Unknown mode for making plumed files.") ∧
    get_cv_name dihedral_info distance_info cv_file stride2 mode =
      .error (.runtimeError "Unknown mode for making plumed files.") := by
  refine ⟨?_, ?_, ?_⟩
  · simp [make_restraint_plumed, h1, h2, h3]
  · simp [make_plain_plumed, h1, h2, h3]
  · simp [get_cv_name, h1, h2, h3]

/-- Witness for C7 at the concrete mode `"bogus"`. -/
theorem unknown_mode_fails_witness :
    make_restraint_plumed [] [] [] (.scalar (.int 1)) (.scalar (.int 1)) (.int 1)
        (.scalar (.int 1)) (.scalar (.int 1)) 10 "o" "bogus" =
      .error (.runtimeError "Unknown mode for making plumed files.") ∧
    make_plain_plumed [] [] [] 10 "o" "bogus" =
      .error (.runtimeError "Unknown mode for making plumed files.") ∧
    get_cv_name [] [] [] 20 "bogus" =
      .error (.runtimeError "Unknown mode for making plumed files.") :=
  unknown_mode_fails [] [] [] (.scalar (.int 1)) (.scalar (.int 1)) (.int 1)
    (.scalar (.int 1)) (.scalar (.int 1)) 10 20 "o" "bogus"
    (by decide) (by decide) (by decide)

/-- Every successful `restraintTail` outcome is a bare script string. -/
theorem restraintTail_shape (content names : List String) (kappa step : PyParam)
    (nsteps : PyVal) (at_ final : PyParam) (stride : Nat) (output : String)
    (r : PyRet)
    (h : restraintTail content names kappa step nsteps at_ final stride output = .ok r) :
    ∃ s, r = .str s := by
  simp only [restraintTail] at h
  cases hm : make_moving_restraint_list names (broadcastNum kappa names.length) step
      nsteps (broadcastNum at_ names.length) final with
  | error e => rw [hm] at h; simp at h
  | ok p =>
  obtain ⟨rl, rn⟩ := p
  rw [hm, except_ok_bind] at h
  cases rn with
  | nil => simp at h
  | cons r0 rest => exact ⟨_, (Except.ok.inj h).symm⟩

/-- Every successful `make_restraint_plumed` outcome is a bare script
string. -/
theorem mrpShapeAux (dihedral_info : List (Int × List (String × List Int)))
    (distance_info : List (String × PyVal)) (cv_file : List PlumedFile)
    (kappa step : PyParam) (nsteps : PyVal) (at_ final : PyParam)
    (stride : Nat) (output : String) (mode : String) (r : PyRet)
    (h : make_restraint_plumed dihedral_info distance_info cv_file kappa step nsteps
        at_ final stride output mode = .ok r) :
    ∃ s, r = .str s := by
  by_cases m1 : mode = "torsion"
  · simp only [make_restraint_plumed, if_pos m1] at h
    cases ht : make_torsion_list_from_file dihedral_info with
    | error e => rw [ht] at h; simp at h
    | ok p =>
      obtain ⟨cvc, cvn⟩ := p
      rw [ht, except_ok_bind] at h
      exact restraintTail_shape _ _ _ _ _ _ _ _ _ _ h
  · by_cases m2 : mode = "distance"
    · simp only [make_restraint_plumed, if_neg m1, if_pos m2] at h
      cases ht : make_distance_list_from_file distance_info with
      | error e => rw [ht] at h; simp at h
      | ok p =>
        obtain ⟨cvc, cvn⟩ := p
        rw [ht, except_ok_bind] at h
        exact restraintTail_shape _ _ _ _ _ _ _ _ _ _ h
    · by_cases m3 : mode = "custom"
      · simp only [make_restraint_plumed, if_neg m1, if_neg m2, if_pos m3] at h
        cases hc : customLoop cv_file stride output with
        | error e => rw [hc] at h; simp at h
        | ok o =>
          rw [hc, except_ok_bind] at h
          cases o with
          | none => simp at h
          | some t =>
            obtain ⟨ret, cvn, pc⟩ := t
            exact restraintTail_shape _ _ _ _ _ _ _ _ _ _ h
      · simp only [make_restraint_plumed, if_neg m1, if_neg m2, if_neg m3] at h
        simp at h

/-- Every successful `make_plain_plumed` outcome is a bare script string. -/
theorem mppShapeAux (dihedral_info : List (Int × List (String × List Int)))
    (distance_info : List (String × PyVal)) (cv_file : List PlumedFile)
    (stride : Nat) (output : String) (mode : String) (r : PyRet)
    (h : make_plain_plumed dihedral_info distance_info cv_file stride output mode = .ok r) :
    ∃ s, r = .str s := by
  by_cases m1 : mode = "torsion"
  · simp only [make_plain_plumed, if_pos m1] at h
    cases ht : make_torsion_list_from_file dihedral_info with
    | error e => rw [ht] at h; simp at h
    | ok p =>
      obtain ⟨cvc, cvn⟩ := p
      rw [ht, except_ok_bind] at h
      exact ⟨_, (Except.ok.inj h).symm⟩
  · by_cases m2 : mode = "distance"
    · simp only [make_plain_plumed, if_neg m1, if_pos m2] at h
      cases ht : make_distance_list_from_file distance_info with
      | error e => rw [ht] at h; simp at h
      | ok p =>
        obtain ⟨cvc, cvn⟩ := p
        rw [ht, except_ok_bind] at h
        exact ⟨_, (Except.ok.inj h).symm⟩
    · by_cases m3 : mode = "custom"
      · simp only [make_plain_plumed, if_neg m1, if_neg m2, if_pos m3] at h
        cases hc : customLoop cv_file stride output with
        | error e => rw [hc] at h; simp at h
        | ok o =>
          rw [hc, except_ok_bind] at h
          cases o with
          | none => simp at h
          | some t =>
            obtain ⟨ret, cvn, pc⟩ := t
            exact ⟨_, (Except.ok.inj h).symm⟩
      · simp only [make_plain_plumed, if_neg m1, if_neg m2, if_neg m3] at h
        simp at h

/-- Every successful `get_cv_name` outcome is a bare name list. -/
theorem gcnShapeAux (dihedral_info : List (Int × List (String × List Int)))
    (distance_info : List (String × PyVal)) (cv_file : List PlumedFile)
    (stride : Nat) (mode : String) (r : PyRet)
    (h : get_cv_name dihedral_info distance_info cv_file stride mode = .ok r) :
    ∃ l, r = .strList l := by
  by_cases m1 : mode = "torsion"
  · simp only [get_cv_name, if_pos m1] at h
    cases ht : make_torsion_list_from_file dihedral_info with
    | error e => rw [ht] at h; simp at h
    | ok p =>
      obtain ⟨cvc, cvn⟩ := p
      rw [ht, except_ok_bind] at h
      exact ⟨_, (Except.ok.inj h).symm⟩
  · by_cases m2 : mode = "distance"
    · simp only [get_cv_name, if_neg m1, if_pos m2] at h
      cases ht : make_distance_list_from_file distance_info with
      | error e => rw [ht] at h; simp at h
      | ok p =>
        obtain ⟨cvc, cvn⟩ := p
        rw [ht, except_ok_bind] at h
        exact ⟨_, (Except.ok.inj h).symm⟩
    · by_cases m3 : mode = "custom"
      · simp only [get_cv_name, if_neg m1, if_neg m2, if_pos m3] at h
        cases hc : customLoop cv_file stride "test.out" with
        | error e => rw [hc] at h; simp at h
        | ok o =>
          rw [hc, except_ok_bind] at h
          cases o with
          | none => simp at h
          | some t =>
            obtain ⟨ret, cvn, pc⟩ := t
            exact ⟨_, (Except.ok.inj h).symm⟩
      · simp only [get_cv_name, if_neg m1, if_neg m2, if_neg m3] at h
        simp at h

/-- Counterexample for C1: at explicit concrete inputs, the plain and
restrained entry points return a bare script string, not a
`(script_text, cv_name_list)` pair. -/
theorem entry_returns_no_pair_counterexample :
    retIsPair (make_plain_plumed [] [] [⟨"cvs.dat", goodScript⟩] 100 "plm.out" "custom") =
      false ∧
    retIsStr (make_plain_plumed [] [] [⟨"cvs.dat", goodScript⟩] 100 "plm.out" "custom") =
      true ∧
    retIsPair (make_restraint_plumed [(12, [("phi", [1, 2, 3, 4])])] [] []
        (.list [.int 2]) (.list [.int 10]) (.int 500) (.list [.int 1]) (.list [.int 7])
        100 "plm.out" "torsion") = false ∧
    retIsStr (make_restraint_plumed [(12, [("phi", [1, 2, 3, 4])])] [] []
        (.list [.int 2]) (.list [.int 10]) (.int 500) (.list [.int 1]) (.list [.int 7])
        100 "plm.out" "torsion") = true := by decide

/-- Claim C1 as amended: every successful plain or restrained assembly call
returns the assembled script text alone (a single string, no name list);
the name-only entry point returns just the name list. -/
theorem entry_return_shapes (dihedral_info : List (Int × List (String × List Int)))
    (distance_info : List (String × PyVal)) (cv_file : List PlumedFile)
    (kappa step : PyParam) (nsteps : PyVal) (at_ final : PyParam)
    (stride stride2 : Nat) (output : String) (mode : String) (r : PyRet) :
    (make_restraint_plumed dihedral_info distance_info cv_file kappa step nsteps
        at_ final stride output mode = .ok r → ∃ s, r = .str s) ∧
    (make_plain_plumed dihedral_info distance_info cv_file stride output mode = .ok r →
      ∃ s, r = .str s) ∧
    (get_cv_name dihedral_info distance_info cv_file stride2 mode = .ok r →
      ∃ l, r = .strList l) :=
  ⟨fun h => mrpShapeAux dihedral_info distance_info cv_file kappa step nsteps at_ final
      stride output mode r h,
   fun h => mppShapeAux dihedral_info distance_info cv_file stride output mode r h,
   fun h => gcnShapeAux dihedral_info distance_info cv_file stride2 mode r h⟩

/-- Witness for C1 at concrete inputs covering all three entry points. -/
theorem entry_return_shapes_witness :
    (∃ s, PyRet.str
        ("TORSION LABEL=dih-12-0 ATOMS=1,2,3,4\nMOVINGRESTRAINT LABEL=res-dih-12-0 " ++
         "ARG=dih-12-0 STEP0=0 AT0=1 KAPPA0=2 STEP1=10 AT1=7 KAPPA1=2 STEP2=500 " ++
         "AT2=7 KAPPA2=2\nPRINT STRIDE=100 ARG=dih-12-0,res-dih-12-0.force2 FILE=plm.out") =
        PyRet.str s) ∧
    (∃ s, PyRet.str "d1: DISTANCE ATOMS=1,2\n\nPRINT STRIDE=100 ARG=a,b FILE=plm.out" =
        PyRet.str s) ∧
    (∃ l, PyRet.strList ["dist-3-5"] = PyRet.strList l) :=
  ⟨(entry_return_shapes [(12, [("phi", [1, 2, 3, 4])])] [] [] (.list [.int 2])
      (.list [.int 10]) (.int 500) (.list [.int 1]) (.list [.int 7]) 100 100 "plm.out"
      "torsion" _).1 (by decide),
   (entry_return_shapes [] [] [⟨"cvs.dat", goodScript⟩] (.list []) (.list []) (.int 0)
      (.list []) (.list []) 100 100 "plm.out" "custom" _).2.1 (by decide),
   (entry_return_shapes [] [("3 5", .float 2)] [] (.list []) (.list []) (.int 0)
      (.list []) (.list []) 100 100 "plm.out" "distance" _).2.2 (by decide)⟩

/-- Concatenation of raw lines, as `ret += line` accumulates them. -/
def concatAll : List String → String
  | [] => ""
  | x :: t => x ++ concatAll t

/-- A one-character split never yields the empty list. -/
theorem pySplitChGo_ne_nil (sep : Char) (l : List Char) :
    ∀ cur, pySplitChGo sep l cur ≠ [] := by
  induction l with
  | nil => intro cur; simp [pySplitChGo]
  | cons c t ih =>
    intro cur
    by_cases hc : c = sep
    · simp [pySplitChGo, hc]
    · simp [pySplitChGo, hc]
      exact ih (c :: cur)

/-- Python `s.split(sep)` never yields the empty list. -/
theorem pySplitCh_ne_nil (sep : Char) (s : String) : pySplitCh sep s ≠ [] := by
  simp [pySplitCh]
  exact pySplitChGo_ne_nil sep s.data []

/-- Scanning past a run of undetected lines only accumulates them onto the
body. -/
theorem userScan_append (body : List String) :
    ∀ (rest : List String) (acc : String), (∀ l ∈ body, detectLine l = false) →
    userScan (body ++ rest) acc = userScan rest (acc ++ concatAll body) := by
  induction body with
  | nil =>
    intro rest acc _
    simp [concatAll]
  | cons l t ih =>
    intro rest acc h
    have hl : detectLine l = false := h l (by simp)
    have ht : ∀ x ∈ t, detectLine x = false := fun x hx => h x (by simp [hx])
    simp only [List.cons_append, userScan, hl, Bool.false_eq_true, if_false,
      List.append_eq]
    rw [ih rest (acc ++ l) ht, concatAll, ← String.append_assoc]

/-- Scanning a detected line extracts the names and breaks. -/
theorem userScan_detected (d : String) (rest : List String) (acc : String)
    (hd : detectLine d = true) :
    userScan (d :: rest) acc =
      (extractNames d) >>= fun names => .ok (acc, names, some d) := by
  simp [userScan, hd]

/-- Is the error an UnboundLocalError? -/
def errIsUnbound : Err → Bool
  | .unboundLocal _ => true
  | _ => false

/-- `extractNames` only raises IndexError. -/
theorem extractNames_err (l : String) (e : Err) (h : extractNames l = .error e) :
    errIsUnbound e = false := by
  unfold extractNames at h
  split at h
  · cases h
    rfl
  · split at h
    · cases h
      rfl
    · cases h

/-- The scan loop only raises errors of `extractNames`. -/
theorem userScan_err (lines : List String) :
    ∀ (acc : String) (e : Err), userScan lines acc = .error e →
    errIsUnbound e = false := by
  induction lines with
  | nil =>
    intro acc e h
    cases h
  | cons l t ih =>
    intro acc e h
    by_cases hd : detectLine l = true
    · rw [userScan_detected l t acc hd] at h
      cases he : extractNames l with
      | error e2 =>
        rw [he] at h
        cases h
        exact extractNames_err l _ he
      | ok names =>
        rw [he] at h
        cases h
    · rw [userScan, if_neg hd] at h
      exact ih (acc ++ l) e h

/-- `user_plumed_def` never raises UnboundLocalError: its own failures are
RuntimeError, AssertionError or IndexError. -/
theorem user_plumed_def_err (lines : List String) (pstride : Nat) (pfile : String)
    (e : Err) (h : user_plumed_def lines pstride pfile = .error e) :
    errIsUnbound e = false := by
  unfold user_plumed_def at h
  cases hu : userScan lines "" with
  | error e2 =>
    rw [hu] at h
    cases h
    exact userScan_err lines "" e hu
  | ok p =>
    obtain ⟨ret, names, pc⟩ := p
    rw [hu] at h
    simp only [except_ok_bind] at h
    by_cases hc1 : ret = "" ∨ names = []
    · rw [if_pos hc1] at h
      cases h
      rfl
    · rw [if_neg hc1] at h
      cases pc with
      | none => cases h
      | some c =>
        by_cases hc2 : (pySplitCh ',' c).length = names.length
        · simp only [hc2, if_true] at h
          cases h
        · simp only [hc2, if_false] at h
          cases h
          rfl

/-- The custom-mode loop only raises errors of `user_plumed_def`. -/
theorem customLoopGo_err (stride : Nat) (output : String) (files : List PlumedFile) :
    ∀ (acc : Option (String × List String × Option String)) (e : Err),
    customLoopGo stride output files acc = .error e → errIsUnbound e = false := by
  induction files with
  | nil => intro acc e h; cases h
  | cons f t ih =>
    intro acc e h
    by_cases hp : isPdbPath f.path = true
    · rw [customLoopGo, if_pos hp] at h
      exact ih acc e h
    · rw [customLoopGo, if_neg hp] at h
      cases hu : user_plumed_def f.lines stride output with
      | error e2 =>
        rw [hu] at h
        cases h
        exact user_plumed_def_err f.lines stride output e hu
      | ok v =>
        rw [hu, except_ok_bind] at h
        exact ih (some v) e h

/-- If every file is skipped as pdb, the loop returns its accumulator. -/
theorem customLoopGo_all_pdb (stride : Nat) (output : String) (files : List PlumedFile) :
    ∀ acc, (∀ f ∈ files, isPdbPath f.path = true) →
    customLoopGo stride output files acc = .ok acc := by
  induction files with
  | nil => intro acc _; rfl
  | cons f t ih =>
    intro acc h
    have hf : isPdbPath f.path = true := h f (by simp)
    rw [customLoopGo, if_pos hf]
    exact ih acc fun g hg => h g (by simp [hg])

/-- Once the loop has assigned a result it never ends unassigned. -/
theorem customLoopGo_some_acc (stride : Nat) (output : String) (files : List PlumedFile) :
    ∀ r, customLoopGo stride output files (some r) ≠ .ok none := by
  induction files with
  | nil => intro r h; cases h
  | cons f t ih =>
    intro r h
    by_cases hp : isPdbPath f.path = true
    · rw [customLoopGo, if_pos hp] at h
      exact ih r h
    · rw [customLoopGo, if_neg hp] at h
      cases hu : user_plumed_def f.lines stride output with
      | error e2 => rw [hu] at h; cases h
      | ok v =>
        rw [hu, except_ok_bind] at h
        exact ih v h

/-- If some file is not skipped, the loop cannot end unassigned. -/
theorem customLoopGo_nonpdb_not_none (stride : Nat) (output : String)
    (files : List PlumedFile) :
    ∀ acc, (∃ f ∈ files, isPdbPath f.path = false) →
    customLoopGo stride output files acc ≠ .ok none := by
  induction files with
  | nil =>
    intro acc hex h
    obtain ⟨f, hf, _⟩ := hex
    cases hf
  | cons f t ih =>
    intro acc hex h
    by_cases hp : isPdbPath f.path = true
    · rw [customLoopGo, if_pos hp] at h
      obtain ⟨g, hg, hgp⟩ := hex
      rcases List.mem_cons.mp hg with hgf | hgt
      · rw [hgf] at hgp
        rw [hp] at hgp
        cases hgp
      · exact ih acc ⟨g, hgt, hgp⟩ h
    · rw [customLoopGo, if_neg hp] at h
      cases hu : user_plumed_def f.lines stride output with
      | error e2 => rw [hu] at h; cases h
      | ok v =>
        rw [hu, except_ok_bind] at h
        exact customLoopGo_some_acc stride output t v h

/-- When the files after `f` are all pdb-skipped and the calls before `f`
all succeed, the loop's outcome is the run of the LAST non-pdb file `f`. -/
theorem customLoopGo_last (stride : Nat) (output : String) (f : PlumedFile)
    (post : List PlumedFile) (hf : isPdbPath f.path = false)
    (hpost : ∀ g ∈ post, isPdbPath g.path = true) :
    ∀ (pre : List PlumedFile) acc,
    (∀ g ∈ pre, isPdbPath g.path = false →
      ∃ v, user_plumed_def g.lines stride output = .ok v) →
    customLoopGo stride output (pre ++ f :: post) acc =
      Except.map some (user_plumed_def f.lines stride output) := by
  intro pre
  induction pre with
  | nil =>
    intro acc _
    rw [List.nil_append, customLoopGo, if_neg (by rw [hf]; simp)]
    cases hu : user_plumed_def f.lines stride output with
    | error e => rfl
    | ok v =>
      rw [except_ok_bind]
      rw [customLoopGo_all_pdb stride output post (some v) hpost]
      rfl
  | cons g t ih =>
    intro acc hpre
    have ht : ∀ x ∈ t, isPdbPath x.path = false →
        ∃ v, user_plumed_def x.lines stride output = .ok v :=
      fun x hx => hpre x (by simp [hx])
    by_cases hg : isPdbPath g.path = true
    · rw [List.cons_append, customLoopGo, if_pos hg]
      exact ih acc ht
    · have hg2 : isPdbPath g.path = false := by
        cases hgv : isPdbPath g.path
        · rfl
        · exact absurd hgv hg
      obtain ⟨v, hv⟩ := hpre g (by simp) hg2
      rw [List.cons_append, customLoopGo, if_neg hg, hv, except_ok_bind]
      exact ih (some v) ht

/-- `pyLen` only raises TypeError. -/
theorem pyLen_err (p : PyParam) (e : Err) (h : pyLen p = .error e) :
    errIsUnbound e = false := by
  cases p with
  | scalar v =>
    cases v with
    | int n => cases h; rfl
    | float q => cases h; rfl
    | str s => cases h
  | list l => cases h

/-- `pyIndex` only raises TypeError or IndexError. -/
theorem pyIndex_err (p : PyParam) (i : Nat) (e : Err) (h : pyIndex p i = .error e) :
    errIsUnbound e = false := by
  cases p with
  | scalar v =>
    cases v with
    | int n => cases h; rfl
    | float q => cases h; rfl
    | str s =>
      simp only [pyIndex] at h
      split at h
      · cases h
      · cases h
        rfl
  | list l =>
    simp only [pyIndex] at h
    split at h
    · cases h
    · cases h
      rfl

/-- The restraint loop only raises errors of `pyIndex`. -/
theorem restraintLoop_err (l : List String) :
    ∀ (kappa step : PyParam) (nsteps : PyVal) (at_ final : PyParam) (idx : Nat)
      (e : Err),
    restraintLoop kappa step nsteps at_ final l idx = .error e →
    errIsUnbound e = false := by
  induction l with
  | nil =>
    intro kappa step nsteps at_ final idx e h
    cases h
  | cons cv rest ih =>
    intro kappa step nsteps at_ final idx e h
    simp only [restraintLoop] at h
    cases hk : pyIndex kappa idx with
    | error e2 =>
      rw [hk] at h
      rw [except_error_bind] at h
      cases h
      exact pyIndex_err kappa idx e hk
    | ok k =>
    rw [hk, except_ok_bind] at h
    cases hs : pyIndex step idx with
    | error e2 =>
      rw [hs] at h
      rw [except_error_bind] at h
      cases h
      exact pyIndex_err step idx e hs
    | ok s =>
    rw [hs, except_ok_bind] at h
    cases ha : pyIndex at_ idx with
    | error e2 =>
      rw [ha] at h
      rw [except_error_bind] at h
      cases h
      exact pyIndex_err at_ idx e ha
    | ok a =>
    rw [ha, except_ok_bind] at h
    cases hf : pyIndex final idx with
    | error e2 =>
      rw [hf] at h
      rw [except_error_bind] at h
      cases h
      exact pyIndex_err final idx e hf
    | ok f =>
    rw [hf, except_ok_bind] at h
    cases hrec : restraintLoop kappa step nsteps at_ final rest (idx + 1) with
    | error e2 =>
      rw [hrec] at h
      rw [except_error_bind] at h
      cases h
      exact ih kappa step nsteps at_ final (idx + 1) e hrec
    | ok p =>
      obtain ⟨rs2, ns2⟩ := p
      rw [hrec, except_ok_bind] at h
      cases h

/-- `make_moving_restraint_list` only raises AssertionError or errors of
`pyLen` / `pyIndex`. -/
theorem make_moving_restraint_list_err (cv_list : List String) (kappa step : PyParam)
    (nsteps : PyVal) (at_ final : PyParam) (e : Err)
    (h : make_moving_restraint_list cv_list kappa step nsteps at_ final = .error e) :
    errIsUnbound e = false := by
  simp only [make_moving_restraint_list] at h
  cases hlk : pyLen kappa with
  | error e2 =>
    rw [hlk] at h
    rw [except_error_bind] at h
    cases h
    exact pyLen_err kappa e hlk
  | ok nk =>
  rw [hlk, except_ok_bind] at h
  split at h
  · cases h
    rfl
  · cases hla : pyLen at_ with
    | error e2 =>
      rw [hla] at h
      rw [except_error_bind] at h
      cases h
      exact pyLen_err at_ e hla
    | ok na =>
      rw [hla, except_ok_bind] at h
      split at h
      · cases h
        rfl
      · exact restraintLoop_err cv_list kappa step nsteps at_ final 0 e h

/-- `restraintTail` only raises IndexError or errors of the builder. -/
theorem restraintTail_err (content names : List String) (kappa step : PyParam)
    (nsteps : PyVal) (at_ final : PyParam) (stride : Nat) (output : String)
    (e : Err)
    (h : restraintTail content names kappa step nsteps at_ final stride output =
      .error e) :
    errIsUnbound e = false := by
  simp only [restraintTail] at h
  cases hm : make_moving_restraint_list names (broadcastNum kappa names.length) step
      nsteps (broadcastNum at_ names.length) final with
  | error e2 =>
    rw [hm] at h
    rw [except_error_bind] at h
    cases h
    exact make_moving_restraint_list_err _ _ _ _ _ _ e hm
  | ok p =>
    obtain ⟨rl, rn⟩ := p
    rw [hm, except_ok_bind] at h
    cases rn with
    | nil => cases h; rfl
    | cons r0 rest => cases h

/-- `retIsUnbound` on an error outcome agrees with `errIsUnbound`. -/
theorem retIsUnbound_error (e : Err) :
    retIsUnbound (.error e : Except Err PyRet) = errIsUnbound e := by
  cases e <;> rfl

/-- The custom-mode branch of `make_restraint_plumed`, as an equation. -/
theorem mrp_custom_eq (dihedral_info : List (Int × List (String × List Int)))
    (distance_info : List (String × PyVal)) (files : List PlumedFile)
    (kappa step : PyParam) (nsteps : PyVal) (at_ final : PyParam)
    (stride : Nat) (output : String) :
    make_restraint_plumed dihedral_info distance_info files kappa step nsteps at_
        final stride output "custom" =
      (customLoop files stride output) >>= fun r =>
        match r with
        | none => .error (.unboundLocal "ret")
        | some (ret, cvn, _) =>
          restraintTail [ret] cvn kappa step nsteps at_ final stride output := by
  rfl

/-- The custom-mode branch of `make_plain_plumed`, as an equation. -/
theorem mpp_custom_eq (dihedral_info : List (Int × List (String × List Int)))
    (distance_info : List (String × PyVal)) (files : List PlumedFile)
    (stride : Nat) (output : String) :
    make_plain_plumed dihedral_info distance_info files stride output "custom" =
      (customLoop files stride output) >>= fun r =>
        match r with
        | none => .error (.unboundLocal "ret")
        | some (ret, cvn, _) =>
          .ok (.str (list_to_string ([ret] ++ [make_print_bias cvn stride output]) "\n")) := by
  rfl

/-- The custom-mode branch of `get_cv_name`, as an equation. -/
theorem gcn_custom_eq (dihedral_info : List (Int × List (String × List Int)))
    (distance_info : List (String × PyVal)) (files : List PlumedFile)
    (stride : Nat) :
    get_cv_name dihedral_info distance_info files stride "custom" =
      (customLoop files stride "test.out") >>= fun r =>
        match r with
        | none => .error (.unboundLocal "cv_name_list")
        | some (_, cvn, _) => .ok (.strList cvn) := by
  rfl

/-- A second conventional custom script, declaring the single CV `c`. -/
def goodScript2 : List String :=
  ["t1: TORSION ATOMS=1,2,3,4\n", "PRINT STRIDE=5 ARG=c FILE=x.out\n"]

/-- Claim C10: in custom mode, (1) an empty `cv_file` list or one whose
paths all end in `pdb` leaves `ret` / `cv_name_list` unassigned, so each
entry point fails with an UnboundLocalError — not with the configured
malformed-script RuntimeError; (2) with at least one non-pdb path no
UnboundLocalError can occur; (3) the bindings used after the loop are those
of the LAST non-pdb file (provided the earlier non-pdb runs succeed), via
the shared loop `customLoop` that all three entry points dispatch to. -/
theorem custom_mode_unbound_spec :
    (∀ (dihedral_info : List (Int × List (String × List Int)))
       (distance_info : List (String × PyVal)) (files : List PlumedFile)
       (kappa step : PyParam) (nsteps : PyVal) (at_ final : PyParam)
       (stride : Nat) (output : String),
      (∀ f ∈ files, isPdbPath f.path = true) →
      make_restraint_plumed dihedral_info distance_info files kappa step nsteps at_
          final stride output "custom" = .error (.unboundLocal "ret") ∧
      make_plain_plumed dihedral_info distance_info files stride output "custom" =
        .error (.unboundLocal "ret") ∧
      get_cv_name dihedral_info distance_info files stride "custom" =
        .error (.unboundLocal "cv_name_list")) ∧
    (∀ (dihedral_info : List (Int × List (String × List Int)))
       (distance_info : List (String × PyVal)) (files : List PlumedFile)
       (kappa step : PyParam) (nsteps : PyVal) (at_ final : PyParam)
       (stride : Nat) (output : String),
      (∃ f ∈ files, isPdbPath f.path = false) →
      retIsUnbound (make_restraint_plumed dihedral_info distance_info files kappa
        step nsteps at_ final stride output "custom") = false ∧
      retIsUnbound (make_plain_plumed dihedral_info distance_info files stride
        output "custom") = false ∧
      retIsUnbound (get_cv_name dihedral_info distance_info files stride
        "custom") = false) ∧
    (∀ (stride : Nat) (output : String) (pre : List PlumedFile) (f : PlumedFile)
       (post : List PlumedFile),
      isPdbPath f.path = false →
      (∀ g ∈ post, isPdbPath g.path = true) →
      (∀ g ∈ pre, isPdbPath g.path = false →
        ∃ v, user_plumed_def g.lines stride output = .ok v) →
      customLoop (pre ++ f :: post) stride output =
        Except.map some (user_plumed_def f.lines stride output)) := by
  refine ⟨?_, ?_, ?_⟩
  · intro dihedral_info distance_info files kappa step nsteps at_ final stride output hall
    have hcl : customLoop files stride output = .ok none :=
      customLoopGo_all_pdb stride output files none hall
    have hcl2 : customLoop files stride "test.out" = .ok none :=
      customLoopGo_all_pdb stride "test.out" files none hall
    refine ⟨?_, ?_, ?_⟩
    · rw [mrp_custom_eq, hcl, except_ok_bind]
    · rw [mpp_custom_eq, hcl, except_ok_bind]
    · rw [gcn_custom_eq, hcl2, except_ok_bind]
  · intro dihedral_info distance_info files kappa step nsteps at_ final stride output hex
    refine ⟨?_, ?_, ?_⟩
    · rw [mrp_custom_eq]
      cases hcl : customLoop files stride output with
      | error e =>
        rw [except_error_bind, retIsUnbound_error]
        exact customLoopGo_err stride output files none e hcl
      | ok o =>
        cases o with
        | none => exact absurd hcl (customLoopGo_nonpdb_not_none stride output files none hex)
        | some t =>
          obtain ⟨ret, cvn, pc⟩ := t
          rw [except_ok_bind]
          show retIsUnbound
            (restraintTail [ret] cvn kappa step nsteps at_ final stride output) = false
          cases hrt : restraintTail [ret] cvn kappa step nsteps at_ final stride output with
          | error e =>
            rw [retIsUnbound_error]
            exact restraintTail_err [ret] cvn kappa step nsteps at_ final stride output e hrt
          | ok r => rfl
    · rw [mpp_custom_eq]
      cases hcl : customLoop files stride output with
      | error e =>
        rw [except_error_bind, retIsUnbound_error]
        exact customLoopGo_err stride output files none e hcl
      | ok o =>
        cases o with
        | none => exact absurd hcl (customLoopGo_nonpdb_not_none stride output files none hex)
        | some t =>
          obtain ⟨ret, cvn, pc⟩ := t
          rw [except_ok_bind]
          show retIsUnbound (Except.ok (PyRet.str
            (list_to_string ([ret] ++ [make_print_bias cvn stride output]) "\n"))) = false
          rfl
    · rw [gcn_custom_eq]
      cases hcl : customLoop files stride "test.out" with
      | error e =>
        rw [except_error_bind, retIsUnbound_error]
        exact customLoopGo_err stride "test.out" files none e hcl
      | ok o =>
        cases o with
        | none =>
          exact absurd hcl (customLoopGo_nonpdb_not_none stride "test.out" files none hex)
        | some t =>
          obtain ⟨ret, cvn, pc⟩ := t
          rw [except_ok_bind]
          show retIsUnbound (Except.ok (PyRet.strList cvn)) = false
          rfl
  · intro stride output pre f post hf hpost hpre
    exact customLoopGo_last stride output f post hf hpost pre none hpre

/-- Witness for C10 at concrete file lists: an all-pdb list fails with
UnboundLocalError in all three entry points; a list with a non-pdb script
does not; with two non-pdb scripts and trailing pdb files, the loop's
outcome is the run of the last non-pdb script. -/
theorem custom_mode_unbound_spec_witness :
    (make_restraint_plumed [] [] [⟨"a.pdb", []⟩] (.scalar (.int 1)) (.scalar (.int 1))
        (.int 1) (.scalar (.int 1)) (.scalar (.int 1)) 10 "o" "custom" =
      .error (.unboundLocal "ret") ∧
     make_plain_plumed [] [] [⟨"a.pdb", []⟩] 10 "o" "custom" =
      .error (.unboundLocal "ret") ∧
     get_cv_name [] [] [⟨"a.pdb", []⟩] 10 "custom" =
      .error (.unboundLocal "cv_name_list")) ∧
    retIsUnbound (make_plain_plumed [] [] [⟨"cvs.dat", goodScript⟩] 100 "plm.out"
      "custom") = false ∧
    customLoop ([⟨"first.dat", goodScript⟩] ++ ⟨"second.dat", goodScript2⟩ ::
        [⟨"y.pdb", []⟩]) 100 "plm.out" =
      Except.map some (user_plumed_def goodScript2 100 "plm.out") := by
  refine ⟨?_, ?_, ?_⟩
  · exact custom_mode_unbound_spec.1 [] [] [⟨"a.pdb", []⟩] (.scalar (.int 1))
      (.scalar (.int 1)) (.int 1) (.scalar (.int 1)) (.scalar (.int 1)) 10 "o"
      (by decide)
  · exact (custom_mode_unbound_spec.2.1 [] [] [⟨"cvs.dat", goodScript⟩]
      (.scalar (.int 1)) (.scalar (.int 1)) (.int 1) (.scalar (.int 1))
      (.scalar (.int 1)) 100 "plm.out"
      ⟨⟨"cvs.dat", goodScript⟩, by decide, by decide⟩).2.1
  · refine custom_mode_unbound_spec.2.2 100 "plm.out" [⟨"first.dat", goodScript⟩]
      ⟨"second.dat", goodScript2⟩ [⟨"y.pdb", []⟩] (by decide) (by decide) ?_
    intro g hg _
    have hg2 : g = ⟨"first.dat", goodScript⟩ := by simpa using hg
    subst hg2
    exact ⟨("d1: DISTANCE ATOMS=1,2\n", ["a", "b"],
      some "PRINT STRIDE=100 ARG=a,b FILE=plm.out"), by decide⟩

/-- Counterexample for C2: on the spec's own round-trip example (print line
`PRINT ARG=a,b STRIDE=10 FILE=old.out`, target stride 50, target file
`new.out`) the adapter does not produce names `["a","b"]` and the claimed
rewritten line; it fails with an AssertionError, because the names are
extracted from the third whitespace token (here `STRIDE=10`). -/
theorem adapter_spec_convention_counterexample :
    user_plumed_def specStyleScript 50 "new.out" =
      .error (.assertionError
        "There are 1 CVs defined in the plumed file, while 2 CVs are printed.") ∧
    adapterNames (user_plumed_def specStyleScript 50 "new.out") ≠ some ["a", "b"] ∧
    adapterRewritten (user_plumed_def specStyleScript 50 "new.out") ≠
      some (some "PRINT ARG=a,b STRIDE=50 FILE=new.out") := by decide

/-- Claim C2 as amended: the adapter assumes the convention
`PRINT STRIDE=s ARG=name1,...,nameK FILE=f` — CV names in the THIRD
whitespace token (value after `=`, comma-split), stride in the second.  It
rewrites the last token to the target file assignment and the SECOND token
to the target stride assignment, preserving all other tokens verbatim
rejoined with single spaces, provided the comma count of the print line
matches the name count and the preceding body is non-empty. -/
theorem adapter_rewrite_spec (body : List String) (line argtok argval : String)
    (ts names : List String) (pstride : Nat) (pfile : String)
    (h1 : ∀ l ∈ body, detectLine l = false)
    (h2 : detectLine line = true)
    (h3 : pySplit line = ts)
    (h4 : ts.get? 2 = some argtok)
    (h5 : pySplitCh '=' argtok = ["ARG", argval])
    (h6 : pySplitCh ',' argval = names)
    (h7 : (pySplitCh ',' line).length = names.length)
    (h8 : concatAll body ≠ "") :
    user_plumed_def (body ++ [line]) pstride pfile =
      .ok (concatAll body, names,
        some (pyJoin " " ((ts.set (ts.length - 1) ("FILE=" ++ pfile)).set 1
          ("STRIDE=" ++ toString pstride)))) := by
  have hx : extractNames line = .ok names := by
    rw [extractNames, h3, h4]
    simp [h5, h6]
  have hne : names ≠ [] := by
    rw [← h6]
    exact pySplitCh_ne_nil ',' argval
  unfold user_plumed_def
  rw [userScan_append body [line] "" h1, userScan_detected line [] _ h2, hx]
  simp only [except_ok_bind, String.empty_append]
  rw [if_neg (not_or.mpr ⟨h8, hne⟩)]
  simp only [h7, if_true, h3]

/-- Witness for C2 at the concrete conventional script: names `["a","b"]`
are extracted and the second and last tokens are rewritten. -/
theorem adapter_rewrite_spec_witness :
    user_plumed_def goodScript 50 "new.out" =
      .ok ("d1: DISTANCE ATOMS=1,2\n", ["a", "b"],
        some "PRINT STRIDE=50 ARG=a,b FILE=new.out") := by
  have h := adapter_rewrite_spec ["d1: DISTANCE ATOMS=1,2\n"]
    "PRINT STRIDE=10 ARG=a,b FILE=old.out\n" "ARG=a,b" "a,b"
    ["PRINT", "STRIDE=10", "ARG=a,b", "FILE=old.out"] ["a", "b"] 50 "new.out"
    (by decide) (by decide) (by decide) (by decide) (by decide) (by decide)
    (by decide) (by decide)
  exact h

/-- Counterexample for C8: the pass-through body keeps a comment line that
precedes the print directive and drops a definition line that follows it,
so it is not "exactly the non-comment, non-directive lines regardless of
position". -/
theorem adapter_body_counterexample :
    adapterBody (user_plumed_def postScript 50 "new.out") =
      some "# comment\nd1: DISTANCE ATOMS=1,2\n" ∧
    adapterBody (user_plumed_def postScript 50 "new.out") ≠
      some ("d1: DISTANCE ATOMS=1,2\n" ++ "d2: DISTANCE ATOMS=3,4\n") := by decide

/-- Claim C8 as amended: on any successful run, the pass-through body is
exactly the concatenation of the raw lines strictly before the detected
print directive — comment lines included — and every line after the
directive is discarded. -/
theorem adapter_body_keeps_leading_lines (body : List String) (d : String)
    (rest : List String) (pstride : Nat) (pfile : String) (r : String)
    (ns : List String) (pc : Option String)
    (h1 : ∀ l ∈ body, detectLine l = false) (h2 : detectLine d = true)
    (h : user_plumed_def (body ++ d :: rest) pstride pfile = .ok (r, ns, pc)) :
    r = concatAll body := by
  unfold user_plumed_def at h
  rw [userScan_append body (d :: rest) "" h1, userScan_detected d rest _ h2] at h
  cases he : extractNames d with
  | error e => rw [he] at h; simp at h
  | ok names =>
    rw [he] at h
    simp only [except_ok_bind, String.empty_append] at h
    by_cases hc1 : concatAll body = "" ∨ names = []
    · rw [if_pos hc1] at h
      simp at h
    · rw [if_neg hc1] at h
      by_cases hc2 : (pySplitCh ',' d).length = names.length
      · simp only [hc2, if_true] at h
        have h2' := Except.ok.inj h
        exact (congrArg (fun t => t.1) h2').symm
      · simp only [hc2, if_false] at h
        simp at h

/-- Witness for C8 at the concrete script with a trailing definition line. -/
theorem adapter_body_keeps_leading_lines_witness :
    "# comment\nd1: DISTANCE ATOMS=1,2\n" =
      concatAll ["# comment\n", "d1: DISTANCE ATOMS=1,2\n"] :=
  adapter_body_keeps_leading_lines ["# comment\n", "d1: DISTANCE ATOMS=1,2\n"]
    "PRINT STRIDE=10 ARG=a FILE=o.out\n" ["d2: DISTANCE ATOMS=3,4\n"] 50 "new.out"
    "# comment\nd1: DISTANCE ATOMS=1,2\n" ["a"]
    (some "PRINT STRIDE=50 ARG=a FILE=new.out")
    (by decide) (by decide) (by decide)

